import Mathlib

/-!
Shallow embedding of the attendance API in `src/app.py`.

Each Flask handler is modelled as a pure Lean function from the request data
and the behaviour of the external collaborators (`firebase_service`,
`supabase_service`, `face_service`, and the `datetime` library) to a pair of
an HTTP response and the list of collaborator calls the handler performed.

Conventions of the embedding:
* A collaborator call that can raise a Python exception is modelled as an
  `Except String` value: `Except.error e` is a raised exception with message
  `str(e) = e`, `Except.ok v` is a normal return of `v`.
* Every collaborator call the handler makes is appended to the event log at
  the moment of the call, whether or not the call raises; "the handler
  performs a storage write" is formalised as the corresponding event being in
  the log.
* JSON request bodies are records of `Option` fields: `none` means the key is
  absent from the JSON object, matching Python `dict.get` with a default.
* JSON response bodies are one record `Resp` with `Option` fields; a field
  that is `none` is absent from the JSON object produced by `jsonify`.
* Face encodings and images are opaque payloads, carried as `String`.
* Numbers appearing as confidences or rates are modelled as `ℚ`.
-/

namespace AttendanceApp

/-- Outcome of `firebase_service.verify_token`: a decoded token with `uid` and
`email` claims, a falsy return (`Invalid token`), or a raised exception. -/
inductive VerifyOutcome where
  | valid (uid email : String)
  | invalid
  | exn (msg : String)
deriving DecidableEq, Repr

/-- The verified identity that `token_required` / `admin_required` attach to
the request (`request.user_id`, `request.user_email`). -/
structure Identity where
  uid : String
  email : String
deriving DecidableEq, Repr

/-- The slice of a `supabase_service.get_user_data` record the code reads:
`user_data.get('role')` (`none` when the key is absent). -/
structure UserData where
  role : Option String
deriving DecidableEq, Repr

/-- The slice of an attendance record the code reads: `r.get('status')`. -/
structure AttRecord where
  status : Option String
deriving DecidableEq, Repr

/-- Result dictionary of `face_service.compare_faces`, returned verbatim as
the `compare_faces` response body. -/
structure CompareResult where
  is_match : Bool
  confidence : ℚ
  distance : ℚ
deriving DecidableEq, Repr

/-- The argument the code passes to `firebase_service.get_attendance_records`
for one bound: `absent` is Python `None`, `raw s` is an unparsed string that
was falsy (only `""` in practice), `parsed d` is a `datetime` object, carried
opaquely as a string. -/
inductive DateArg where
  | absent
  | raw (s : String)
  | parsed (d : String)
deriving DecidableEq, Repr

/-- Stats dictionary built by `get_system_stats`. -/
structure Stats where
  total_users : Nat
  present_today : Nat
  attendance_rate : ℚ
  system_status : String
  last_updated : String
deriving DecidableEq, Repr

/-- A JSON response together with its HTTP status code. Fields that are
`none` are absent from the JSON body. -/
structure Resp where
  status : Nat := 200
  success : Option Bool := none
  error : Option String := none
  message : Option String := none
  confidence : Option ℚ := none
  timestamp : Option (Option String) := none
  encoding_saved : Option Bool := none
  image_url : Option String := none
  comparison : Option CompareResult := none
  records : Option (List AttRecord) := none
  users : Option (List UserData) := none
  count : Option Nat := none
  stats : Option Stats := none
deriving DecidableEq, Repr

/-- `jsonify({'success': False, 'error': e}), status`. -/
def errResp (status : Nat) (e : String) : Resp :=
  { status := status, success := some false, error := some e }

/-- One collaborator call made by a handler, recorded in the event log. -/
inductive Event where
  | verifyToken (t : String)
  | getUserData (uid : String)
  | validateQuality (img : String)
  | encodeFace (img : String)
  | saveFaceEncoding (userId enc : String) (isRef : Bool)
  | uploadImage (img userId imgType : String)
  | getFaceEncoding (userId : String) (isRef : Bool)
  | compareFaces (ref cand : String)
  | markAttendance (userId : String) (conf : ℚ) (ts : Option String)
  | getAttendanceRecords (sd ed : DateArg)
  | getAllUsers
deriving DecidableEq, Repr

/-- Behaviour of the external collaborators for the duration of one request:
`firebase_service`, `supabase_service` and `face_service`. Each field models
one method; `Except.error e` models a raised exception. -/
structure Services where
  verifyToken : String → VerifyOutcome
  getUserData : String → Except String (Option UserData)
  validateFaceQuality : String → Except String (Bool × String)
  encodeFace : String → Except String (Option String × String)
  saveFaceEncoding : String → String → Bool → Except String Bool
  uploadImage : String → String → String → Except String String
  getFaceEncoding : String → Bool → Except String (Option String)
  compareFaces : String → String → Except String CompareResult
  markAttendance : String → ℚ → Option String → Except String Bool
  getAttendanceRecords : DateArg → DateArg → Except String (List AttRecord)
  getAllUsers : Except String (List UserData)

/-- Behaviour of the Python `datetime` library for one request:
`datetime.fromisoformat` (which raises on malformed input), the start of the
current day (`datetime.now().replace(hour=0, ...)`), `+ timedelta(days=1)`,
and `datetime.now().isoformat()`. -/
structure PyDatetime where
  fromisoformat : String → Except String String
  todayStart : String
  addOneDay : String → String
  nowIso : String

/-- Python `s.startswith(p)`. -/
def pyStartsWith (s p : String) : Bool :=
  s.toList.take p.toList.length == p.toList

/-- Split a character list at every occurrence of `sep`, keeping empty
pieces, as Python `str.split(sep)` does for a one-character separator. -/
def splitOnChar (sep : Char) : List Char → List (List Char)
  | [] => [[]]
  | c :: cs =>
      let r := splitOnChar sep cs
      if c = sep then [] :: r
      else
        match r with
        | [] => [[c]]
        | g :: gs => (c :: g) :: gs

/-- Python `s.split(sep)` for a one-character separator. -/
def pySplit (s : String) (sep : Char) : List String :=
  (splitOnChar sep s.toList).map String.mk

/-- Python `s.replace(pat, rep)` for a one-character pattern. -/
def pyReplace1 (s : String) (pat : Char) (rep : String) : String :=
  String.mk (List.foldr (fun c acc => (if c = pat then rep.toList else [c]) ++ acc) [] s.toList)

/-- Python falsiness of a string: `not s` is true exactly for `""`. -/
def pyFalsy (s : String) : Bool := s.toList.isEmpty

/-- Token extraction shared by both decorators (`app.py` lines 19-28 and
51-59): take the `Authorization` header, require the `Bearer ` prefix, take
the second space-separated component (`auth_header.split(' ')[1]`);
`if not token` treats an absent or empty token as missing. -/
def getToken (hdr : Option String) : Option String :=
  match hdr with
  | none => none
  | some auth =>
      if pyStartsWith auth "Bearer " then
        match (pySplit auth ' ')[1]? with
        | some t => if pyFalsy t then none else some t
        | none => none
      else none

/-- The admin check of `admin_required` (`app.py` line 68):
`not user_data or user_data.get('role') != 'admin'`. -/
def roleFails (ud : Option UserData) : Bool :=
  match ud with
  | none => true
  | some u => u.role != some "admin"

/-- The `token_required` decorator applied to a handler body: the route
function for any `@token_required` endpoint. -/
def token_required (svc : Services) (hdr : Option String)
    (handler : Identity → Resp × List Event) : Resp × List Event :=
  match getToken hdr with
  | none => (errResp 401 "Token is missing", [])
  | some t =>
      match svc.verifyToken t with
      | .invalid => (errResp 401 "Invalid token", [.verifyToken t])
      | .exn e => (errResp 401 e, [.verifyToken t])
      | .valid uid email =>
          let r := handler ⟨uid, email⟩
          (r.1, .verifyToken t :: r.2)

/-- The `admin_required` decorator applied to a handler body: the route
function for any `@admin_required` endpoint. An exception raised by the role
lookup is caught by the same `except` as token verification and reported
with status 401. -/
def admin_required (svc : Services) (hdr : Option String)
    (handler : Identity → Resp × List Event) : Resp × List Event :=
  match getToken hdr with
  | none => (errResp 401 "Token is missing", [])
  | some t =>
      match svc.verifyToken t with
      | .invalid => (errResp 401 "Invalid token", [.verifyToken t])
      | .exn e => (errResp 401 e, [.verifyToken t])
      | .valid uid email =>
          match svc.getUserData uid with
          | .error e => (errResp 401 e, [.verifyToken t, .getUserData uid])
          | .ok ud =>
              if roleFails ud then
                (errResp 403 "Admin access required", [.verifyToken t, .getUserData uid])
              else
                let r := handler ⟨uid, email⟩
                (r.1, .verifyToken t :: .getUserData uid :: r.2)

/-- JSON body of an `upload_face` request. -/
structure UploadBody where
  image_data : Option String := none
  user_id : Option String := none
  is_reference : Option Bool := none
deriving DecidableEq, Repr

/-- JSON body of a `compare_faces` request. -/
structure CompareBody where
  user_id : Option String := none
  captured_image : Option String := none
deriving DecidableEq, Repr

/-- JSON body of a `mark_attendance` request. -/
structure MarkBody where
  user_id : Option String := none
  confidence : Option ℚ := none
  timestamp : Option String := none
deriving DecidableEq, Repr

/-- Query parameters of an `attendance_records` request. -/
structure RecordsArgs where
  start_date : Option String := none
  end_date : Option String := none
deriving DecidableEq, Repr

/-- Body of the `upload_face` handler (`app.py` lines 91-133), given the
identity attached by `token_required`. -/
def upload_face (svc : Services) (ident : Identity) (body : UploadBody) :
    Resp × List Event :=
  let user_id := body.user_id.getD ident.uid
  let is_reference := body.is_reference.getD false
  match body.image_data with
  | none => (errResp 400 "No image data provided", [])
  | some img =>
      if pyFalsy img then (errResp 400 "No image data provided", [])
      else
        match svc.validateFaceQuality img with
        | .error e => (errResp 500 e, [.validateQuality img])
        | .ok (false, msg) =>
            (errResp 400 ("Face quality check failed: " ++ msg), [.validateQuality img])
        | .ok (true, _) =>
            match svc.encodeFace img with
            | .error e => (errResp 500 e, [.validateQuality img, .encodeFace img])
            | .ok (none, msg) => (errResp 400 msg, [.validateQuality img, .encodeFace img])
            | .ok (some enc, _) =>
                match svc.saveFaceEncoding user_id enc is_reference with
                | .error e =>
                    (errResp 500 e,
                     [.validateQuality img, .encodeFace img,
                      .saveFaceEncoding user_id enc is_reference])
                | .ok false =>
                    (errResp 500 "Failed to save face encoding",
                     [.validateQuality img, .encodeFace img,
                      .saveFaceEncoding user_id enc is_reference])
                | .ok true =>
                    let image_type := if is_reference then "reference" else "captured"
                    match svc.uploadImage img user_id image_type with
                    | .error e =>
                        (errResp 500 e,
                         [.validateQuality img, .encodeFace img,
                          .saveFaceEncoding user_id enc is_reference,
                          .uploadImage img user_id image_type])
                    | .ok url =>
                        ({ status := 200, success := some true,
                           message := some "Face uploaded successfully",
                           encoding_saved := some true, image_url := some url },
                         [.validateQuality img, .encodeFace img,
                          .saveFaceEncoding user_id enc is_reference,
                          .uploadImage img user_id image_type])

/-- Body of the `compare_faces` handler (`app.py` lines 137-166). -/
def compare_faces (svc : Services) (ident : Identity) (body : CompareBody) :
    Resp × List Event :=
  let user_id := body.user_id.getD ident.uid
  match body.captured_image with
  | none => (errResp 400 "No captured image provided", [])
  | some img =>
      if pyFalsy img then (errResp 400 "No captured image provided", [])
      else
        match svc.getFaceEncoding user_id true with
        | .error e => (errResp 500 e, [.getFaceEncoding user_id true])
        | .ok none => (errResp 404 "No reference face found", [.getFaceEncoding user_id true])
        | .ok (some ref) =>
            match svc.encodeFace img with
            | .error e => (errResp 500 e, [.getFaceEncoding user_id true, .encodeFace img])
            | .ok (none, msg) =>
                (errResp 400 msg, [.getFaceEncoding user_id true, .encodeFace img])
            | .ok (some cand, _) =>
                match svc.compareFaces ref cand with
                | .error e =>
                    (errResp 500 e,
                     [.getFaceEncoding user_id true, .encodeFace img, .compareFaces ref cand])
                | .ok result =>
                    match svc.saveFaceEncoding user_id cand false with
                    | .error e =>
                        (errResp 500 e,
                         [.getFaceEncoding user_id true, .encodeFace img,
                          .compareFaces ref cand, .saveFaceEncoding user_id cand false])
                    | .ok _ =>
                        ({ status := 200, comparison := some result },
                         [.getFaceEncoding user_id true, .encodeFace img,
                          .compareFaces ref cand, .saveFaceEncoding user_id cand false])

/-- Body of the `mark_attendance` handler (`app.py` lines 170-200). A missing
`confidence` key defaults to `0` (`data.get('confidence', 0)`). -/
def mark_attendance (svc : Services) (ident : Identity) (body : MarkBody) :
    Resp × List Event :=
  let user_id := body.user_id.getD ident.uid
  let confidence := body.confidence.getD 0
  if confidence < 60 then
    ({ status := 400, success := some false,
       error := some "Face match confidence too low",
       confidence := some confidence }, [])
  else
    match svc.markAttendance user_id confidence body.timestamp with
    | .error e => (errResp 500 e, [.markAttendance user_id confidence body.timestamp])
    | .ok true =>
        ({ status := 200, success := some true,
           message := some "Attendance marked successfully",
           confidence := some confidence, timestamp := some body.timestamp },
         [.markAttendance user_id confidence body.timestamp])
    | .ok false =>
        (errResp 500 "Failed to mark attendance",
         [.markAttendance user_id confidence body.timestamp])

/-- One optional date query parameter as `get_attendance_records` prepares it
(`app.py` lines 212-215): a truthy string has `Z` replaced by `+00:00` and is
parsed with `datetime.fromisoformat`, which raises on malformed input; an
absent or falsy value is passed through unchanged. -/
def parseDateArg (lib : PyDatetime) (a : Option String) : Except String DateArg :=
  match a with
  | none => .ok .absent
  | some s =>
      if pyFalsy s then .ok (.raw s)
      else (lib.fromisoformat (pyReplace1 s 'Z' "+00:00")).map .parsed

/-- Body of the `get_attendance_records` handler (`app.py` lines 204-226).
Any exception raised while parsing the dates or reading storage is caught by
the handler-level `except` and reported with status 500. -/
def get_attendance_records (svc : Services) (lib : PyDatetime) (_ident : Identity)
    (args : RecordsArgs) : Resp × List Event :=
  match parseDateArg lib args.start_date with
  | .error e => (errResp 500 e, [])
  | .ok sd =>
      match parseDateArg lib args.end_date with
      | .error e => (errResp 500 e, [])
      | .ok ed =>
          match svc.getAttendanceRecords sd ed with
          | .error e => (errResp 500 e, [.getAttendanceRecords sd ed])
          | .ok records =>
              ({ status := 200, success := some true,
                 records := some records, count := some records.length },
               [.getAttendanceRecords sd ed])

/-- Round a rational to an integer the way Python `round` rounds a float:
to the nearest integer, ties to the even integer. -/
def pyRound (q : ℚ) : ℤ :=
  let f := ⌊q⌋
  let r := q - f
  if r < 1 / 2 then f
  else if 1 / 2 < r then f + 1
  else if f % 2 = 0 then f else f + 1

/-- Python `round(q, 2)`: round to two decimal places, ties to even. -/
def pyRound2 (q : ℚ) : ℚ := (pyRound (q * 100) : ℚ) / 100

/-- Body of the `get_system_stats` handler (`app.py` lines 246-275). -/
def get_system_stats (svc : Services) (lib : PyDatetime) (_ident : Identity) :
    Resp × List Event :=
  let today_start := lib.todayStart
  let today_end := lib.addOneDay today_start
  match svc.getAttendanceRecords (.parsed today_start) (.parsed today_end) with
  | .error e => (errResp 500 e, [.getAttendanceRecords (.parsed today_start) (.parsed today_end)])
  | .ok today_records =>
      match svc.getAllUsers with
      | .error e =>
          (errResp 500 e,
           [.getAttendanceRecords (.parsed today_start) (.parsed today_end), .getAllUsers])
      | .ok users =>
          let total_users := users.length
          let present_today := (today_records.filter (fun r => r.status = some "present")).length
          let attendance_rate : ℚ :=
            if total_users > 0 then (present_today : ℚ) / (total_users : ℚ) * 100 else 0
          ({ status := 200, success := some true,
             stats := some { total_users := total_users, present_today := present_today,
                             attendance_rate := pyRound2 attendance_rate,
                             system_status := "online", last_updated := lib.nowIso } },
           [.getAttendanceRecords (.parsed today_start) (.parsed today_end), .getAllUsers])

/-- Body of the `get_users` handler (`app.py` lines 230-242). -/
def get_users (svc : Services) (_ident : Identity) : Resp × List Event :=
  match svc.getAllUsers with
  | .error e => (errResp 500 e, [.getAllUsers])
  | .ok users =>
      ({ status := 200, success := some true,
         users := some users, count := some users.length }, [.getAllUsers])

/-- The full `/upload_face` route: `token_required` wrapping `upload_face`. -/
def upload_face_route (svc : Services) (hdr : Option String) (body : UploadBody) :
    Resp × List Event :=
  token_required svc hdr (fun ident => upload_face svc ident body)

/-- The full `/compare_faces` route. -/
def compare_faces_route (svc : Services) (hdr : Option String) (body : CompareBody) :
    Resp × List Event :=
  token_required svc hdr (fun ident => compare_faces svc ident body)

/-- The full `/mark_attendance` route. -/
def mark_attendance_route (svc : Services) (hdr : Option String) (body : MarkBody) :
    Resp × List Event :=
  token_required svc hdr (fun ident => mark_attendance svc ident body)

/-- The full `/attendance_records` route: `admin_required` wrapping the body. -/
def attendance_records_route (svc : Services) (lib : PyDatetime) (hdr : Option String)
    (args : RecordsArgs) : Resp × List Event :=
  admin_required svc hdr (fun ident => get_attendance_records svc lib ident args)

/-- The full `/system_stats` route. -/
def system_stats_route (svc : Services) (lib : PyDatetime) (hdr : Option String) :
    Resp × List Event :=
  admin_required svc hdr (fun ident => get_system_stats svc lib ident)

/-- The full `/users` route: `admin_required` wrapping `get_users`. -/
def users_route (svc : Services) (hdr : Option String) : Resp × List Event :=
  admin_required svc hdr (fun ident => get_users svc ident)

/-- Does the auth gate shared by both decorators fail for this request:
token absent or malformed, or the verifier does not return a decoded token. -/
def authGateFails (svc : Services) (hdr : Option String) : Bool :=
  match getToken hdr with
  | none => true
  | some t =>
      match svc.verifyToken t with
      | .valid _ _ => false
      | _ => true

/-- A basic shape check for ISO-8601 date strings (`YYYY-MM-DD` prefix),
used by the concrete `datetime` model below. -/
def isoLike (s : String) : Bool :=
  let cs := s.toList
  decide (10 ≤ cs.length) && (cs.take 4).all (fun c => c.isDigit) &&
  (cs[4]? == some '-') && ((cs.drop 5).take 2).all (fun c => c.isDigit) &&
  (cs[7]? == some '-') && ((cs.drop 8).take 2).all (fun c => c.isDigit)

/-- A concrete model of the Python `datetime` library, used to evaluate the
handlers on concrete requests: `fromisoformat` accepts strings shaped like
ISO-8601 dates and raises `ValueError` (here: `Except.error`) on anything
else, exactly as the real `datetime.fromisoformat` does on the concrete
inputs appearing in this file. -/
def pylib : PyDatetime where
  fromisoformat := fun s =>
    if isoLike s then .ok s else .error ("Invalid isoformat string: " ++ s)
  todayStart := "2024-01-01T00:00:00"
  addOneDay := fun _ => "2024-01-02T00:00:00"
  nowIso := "2024-01-01T12:00:00"

/-- A concrete collaborator behaviour in which every external call succeeds:
the token `tok1` decodes to user `u1`, who has the admin role; encodings and
URLs are derived from their inputs. Used to evaluate the handlers on
concrete requests. -/
def svcBase : Services where
  verifyToken := fun t => if t = "tok1" then .valid "u1" "u1@mail.test" else .invalid
  getUserData := fun _ => .ok (some { role := some "admin" })
  validateFaceQuality := fun _ => .ok (true, "quality ok")
  encodeFace := fun img => .ok (some ("enc:" ++ img), "encoded")
  saveFaceEncoding := fun _ _ _ => .ok true
  uploadImage := fun _ u ty => .ok ("https://store.test/" ++ u ++ "/" ++ ty)
  getFaceEncoding := fun u _ => .ok (some ("ref:" ++ u))
  compareFaces := fun _ _ => .ok { is_match := true, confidence := 95, distance := 5 }
  markAttendance := fun _ _ _ => .ok true
  getAllUsers := .ok []
  getAttendanceRecords := fun _ _ => .ok []

/-- `svcBase`, except that the subject's user record has a non-admin role. -/
def svcNonAdmin : Services :=
  { svcBase with getUserData := fun _ => .ok (some { role := some "member" }) }

/-- `svcBase`, except that token verification raises. -/
def svcVerifyRaises : Services :=
  { svcBase with verifyToken := fun _ => .exn "jwt boom" }

/-- `svcBase`, except that the user-store role lookup raises. -/
def svcRoleLookupRaises : Services :=
  { svcBase with getUserData := fun _ => .error "boom: user store down" }

/-- `svcBase`, except that the subject has no stored reference encoding. -/
def svcNoReference : Services :=
  { svcBase with getFaceEncoding := fun _ _ => .ok none }

/-- `svcBase`, except that uploading the raw image to object storage
raises. -/
def svcImageUploadRaises : Services :=
  { svcBase with uploadImage := fun _ _ _ => .error "storage write failed" }

/-- `svcBase`, except that the store holds three users of whom one is
present today. -/
def svcThreeUsersOnePresent : Services :=
  { svcBase with
      getAllUsers := .ok [{ role := some "member" }, { role := some "member" },
                          { role := some "member" }],
      getAttendanceRecords := fun _ _ => .ok [{ status := some "present" }] }

/-- `svcBase`, except that the attendance write raises. -/
def svcMarkRaises : Services :=
  { svcBase with markAttendance := fun _ _ _ => .error "firestore unavailable" }

/-- `svcBase`, except that saving a face encoding raises. -/
def svcSaveRaises : Services :=
  { svcBase with saveFaceEncoding := fun _ _ _ => .error "encoding store down" }

/-- `svcBase`, except that the face-quality check raises. -/
def svcQualityRaises : Services :=
  { svcBase with validateFaceQuality := fun _ => .error "quality service down" }

/-- `svcBase`, except that face encoding raises. -/
def svcEncodeRaises : Services :=
  { svcBase with encodeFace := fun _ => .error "encoder down" }

/-- `svcBase`, except that the stored-encoding lookup raises. -/
def svcRefLookupRaises : Services :=
  { svcBase with getFaceEncoding := fun _ _ => .error "encoding lookup down" }

/-- `svcBase`, except that the face comparison raises. -/
def svcCompareRaises : Services :=
  { svcBase with compareFaces := fun _ _ => .error "comparator down" }

/-- `svcBase`, except that reading attendance records raises. -/
def svcRecordsRaises : Services :=
  { svcBase with getAttendanceRecords := fun _ _ => .error "records read down" }

/-- `svcBase`, except that listing all users raises. -/
def svcUsersRaises : Services :=
  { svcBase with getAllUsers := .error "user list down" }

/-! Helper lemmas about the decorators. -/

theorem token_required_valid (svc : Services) (hdr : Option String)
    (handler : Identity → Resp × List Event) (t uid email : String)
    (htok : getToken hdr = some t)
    (hver : svc.verifyToken t = VerifyOutcome.valid uid email) :
    token_required svc hdr handler =
      ((handler ⟨uid, email⟩).1, Event.verifyToken t :: (handler ⟨uid, email⟩).2) := by
  simp [token_required, htok, hver]

theorem admin_required_passes (svc : Services) (hdr : Option String)
    (handler : Identity → Resp × List Event) (t uid email : String)
    (ud : Option UserData)
    (htok : getToken hdr = some t)
    (hver : svc.verifyToken t = VerifyOutcome.valid uid email)
    (hud : svc.getUserData uid = Except.ok ud)
    (hrole : roleFails ud = false) :
    admin_required svc hdr handler =
      ((handler ⟨uid, email⟩).1,
       Event.verifyToken t :: Event.getUserData uid :: (handler ⟨uid, email⟩).2) := by
  simp [admin_required, htok, hver, hud, hrole]

/-! The claims. -/

/-- C2: for every request to a protected route whose token is absent, has a
malformed bearer prefix, or fails external verification, the response is 401
and the wrapped handler body is never executed (the route's outcome is
independent of the handler); a missing or malformed token is rejected before
any external verification call is made (the event log is empty). This covers
both decorators, hence every protected route. -/
theorem claim_C2 (svc : Services) (hdr : Option String)
    (hfail : authGateFails svc hdr = true) :
    ∀ h1 h2 : Identity → Resp × List Event,
      token_required svc hdr h1 = token_required svc hdr h2 ∧
      admin_required svc hdr h1 = admin_required svc hdr h2 ∧
      (token_required svc hdr h1).1.status = 401 ∧
      (token_required svc hdr h1).1.success = some false ∧
      (admin_required svc hdr h1).1.status = 401 ∧
      (getToken hdr = none →
        (token_required svc hdr h1).2 = [] ∧ (admin_required svc hdr h1).2 = []) := by
  intro h1 h2
  rcases hgt : getToken hdr with _ | t
  · simp [token_required, admin_required, hgt, errResp]
  · cases hv : svc.verifyToken t
    case valid uid email =>
      exfalso
      simp [authGateFails, hgt, hv] at hfail
    case invalid => simp [token_required, admin_required, hgt, hv, errResp]
    case exn e => simp [token_required, admin_required, hgt, hv, errResp]

/-- C2 witness: a malformed bearer prefix is rejected with 401 before any
external verification call and without running the handler. -/
theorem claim_C2_witness :
    (token_required svcBase (some "Basic abc")
        (fun _ => ({ status := 200 }, []))).1.status = 401 ∧
    (token_required svcBase (some "Basic abc")
        (fun _ => ({ status := 200 }, []))).2 = [] := by
  have h := claim_C2 svcBase (some "Basic abc") (by decide)
      (fun _ => ({ status := 200 }, [])) (fun _ => ({ status := 201 }, []))
  exact ⟨h.2.2.1, (h.2.2.2.2.2 (by decide)).1⟩

/-- C3: on an admin-only route, a token that verifies to a valid identity
whose user record is missing or whose role is not `admin` yields 403
(`Admin access required`), never running the handler, and this status is
distinct from the 401 used for invalid tokens. -/
theorem claim_C3 (svc : Services) (hdr : Option String) (t uid email : String)
    (ud : Option UserData)
    (htok : getToken hdr = some t)
    (hver : svc.verifyToken t = VerifyOutcome.valid uid email)
    (hud : svc.getUserData uid = Except.ok ud)
    (hrole : roleFails ud = true) :
    ∀ handler : Identity → Resp × List Event,
      admin_required svc hdr handler =
        (errResp 403 "Admin access required",
         [Event.verifyToken t, Event.getUserData uid]) ∧
      (admin_required svc hdr handler).1.status = 403 ∧
      (admin_required svc hdr handler).1.status ≠ 401 := by
  intro handler
  have h : admin_required svc hdr handler =
      (errResp 403 "Admin access required",
       [Event.verifyToken t, Event.getUserData uid]) := by
    simp [admin_required, htok, hver, hud, hrole]
  refine ⟨h, ?_, ?_⟩ <;> rw [h] <;> simp [errResp]

/-- C3 witness: a valid token whose identity has role `member` gets 403 on an
admin route. -/
theorem claim_C3_witness :
    (admin_required svcNonAdmin (some "Bearer tok1")
        (fun _ => ({ status := 200 }, []))).1.status = 403 := by
  have h := claim_C3 svcNonAdmin (some "Bearer tok1") "tok1" "u1" "u1@mail.test"
      (some { role := some "member" }) (by decide) (by decide) rfl (by decide)
      (fun _ => ({ status := 200 }, []))
  exact h.2.1

/-- C10: a `mark_attendance` request whose body omits the `confidence` field
is treated as confidence 0, so the handler returns the 400 low-confidence
rejection with error `Face match confidence too low` and confidence 0 echoed,
and performs no storage write (empty event log). -/
theorem claim_C10 (svc : Services) (ident : Identity) (body : MarkBody)
    (h : body.confidence = none) :
    mark_attendance svc ident body =
      ({ status := 400, success := some false,
         error := some "Face match confidence too low",
         confidence := some 0 }, []) := by
  simp [mark_attendance, h]

/-- C10 witness at a concrete request. -/
theorem claim_C10_witness :
    mark_attendance svcBase ⟨"u1", "u1@mail.test"⟩ { user_id := some "u9" } =
      ({ status := 400, success := some false,
         error := some "Face match confidence too low",
         confidence := some 0 }, []) :=
  claim_C10 svcBase ⟨"u1", "u1@mail.test"⟩ { user_id := some "u9" } rfl

/-- C1: for every authenticated `mark_attendance` request, the attendance
storage write is performed iff the confidence `c` (defaulting to 0) satisfies
`c >= 60`; for `c < 60` the handler performs no collaborator call beyond token
verification and returns a 400 response echoing the rejected confidence. -/
theorem claim_C1 (svc : Services) (hdr : Option String) (body : MarkBody)
    (t uid email : String)
    (htok : getToken hdr = some t)
    (hver : svc.verifyToken t = VerifyOutcome.valid uid email) :
    (Event.markAttendance (body.user_id.getD uid) (body.confidence.getD 0) body.timestamp
        ∈ (mark_attendance_route svc hdr body).2 ↔ 60 ≤ body.confidence.getD 0) ∧
    (body.confidence.getD 0 < 60 →
      (mark_attendance_route svc hdr body).1 =
        { status := 400, success := some false,
          error := some "Face match confidence too low",
          confidence := some (body.confidence.getD 0) } ∧
      (mark_attendance_route svc hdr body).2 = [Event.verifyToken t]) := by
  rw [mark_attendance_route, token_required_valid svc hdr _ t uid email htok hver]
  by_cases h60 : body.confidence.getD 0 < 60
  · refine ⟨?_, fun _ => ?_⟩
    · simp [mark_attendance, h60, not_le]
    · simp [mark_attendance, h60]
  · have hle := not_lt.mp h60
    refine ⟨?_, fun h => absurd h h60⟩
    rcases hm : svc.markAttendance (body.user_id.getD uid) (body.confidence.getD 0)
        body.timestamp with e | b
    · simp [mark_attendance, h60, hm, hle]
    · cases b <;> simp [mark_attendance, h60, hm, hle]

/-- C1 witness: confidence 80 is accepted and written; the same theorem at
confidence 40 gives the 400 echo with no write. -/
theorem claim_C1_witness :
    Event.markAttendance "u1" 80 none ∈
      (mark_attendance_route svcBase (some "Bearer tok1") { confidence := some 80 }).2 ∧
    (mark_attendance_route svcBase (some "Bearer tok1") { confidence := some 40 }).1 =
      { status := 400, success := some false,
        error := some "Face match confidence too low", confidence := some 40 } := by
  have h80 := claim_C1 svcBase (some "Bearer tok1") { confidence := some 80 }
      "tok1" "u1" "u1@mail.test" (by decide) (by decide)
  have h40 := claim_C1 svcBase (some "Bearer tok1") { confidence := some 40 }
      "tok1" "u1" "u1@mail.test" (by decide) (by decide)
  exact ⟨h80.1.mpr (by decide), (h40.2 (by decide)).1⟩

/-- C4: an authenticated `compare_faces` request for a subject with no stored
reference encoding gets a 404 `No reference face found` response, and the
face-comparison capability is never invoked. -/
theorem claim_C4 (svc : Services) (hdr : Option String) (body : CompareBody)
    (t uid email img : String)
    (htok : getToken hdr = some t)
    (hver : svc.verifyToken t = VerifyOutcome.valid uid email)
    (himg : body.captured_image = some img)
    (hne : pyFalsy img = false)
    (href : svc.getFaceEncoding (body.user_id.getD uid) true = Except.ok none) :
    (compare_faces_route svc hdr body).1 = errResp 404 "No reference face found" ∧
    (compare_faces_route svc hdr body).1.status = 404 ∧
    ∀ r c, Event.compareFaces r c ∉ (compare_faces_route svc hdr body).2 := by
  rw [compare_faces_route, token_required_valid svc hdr _ t uid email htok hver]
  refine ⟨?_, ?_, ?_⟩ <;> simp [compare_faces, himg, hne, href, errResp]

/-- C4 witness at a concrete request with no reference encoding. -/
theorem claim_C4_witness :
    (compare_faces_route svcNoReference (some "Bearer tok1")
        { captured_image := some "imgB" }).1.status = 404 ∧
    Event.compareFaces "ref:u1" "enc:imgB" ∉
      (compare_faces_route svcNoReference (some "Bearer tok1")
        { captured_image := some "imgB" }).2 := by
  have h := claim_C4 svcNoReference (some "Bearer tok1") { captured_image := some "imgB" }
      "tok1" "u1" "u1@mail.test" "imgB" (by decide) (by decide) rfl rfl rfl
  exact ⟨h.2.1, h.2.2 "ref:u1" "enc:imgB"⟩

/-- C9: in `upload_face`, `compare_faces` and `mark_attendance`, the user id
used for the storage calls is `body.user_id.getD ident.uid`: the
authenticated identity's subject id exactly when the body omits `user_id`
(`Option.getD none`), and the supplied value unchanged otherwise
(`Option.getD (some u) = u`). -/
theorem claim_C9 (svc : Services) (ident : Identity)
    (ub : UploadBody) (cb : CompareBody) (mb : MarkBody) :
    (∀ img enc msg q, ub.image_data = some img → pyFalsy img = false →
        svc.validateFaceQuality img = Except.ok (true, q) →
        svc.encodeFace img = Except.ok (some enc, msg) →
        Event.saveFaceEncoding (ub.user_id.getD ident.uid) enc (ub.is_reference.getD false)
          ∈ (upload_face svc ident ub).2) ∧
    (∀ img, cb.captured_image = some img → pyFalsy img = false →
        Event.getFaceEncoding (cb.user_id.getD ident.uid) true
          ∈ (compare_faces svc ident cb).2) ∧
    (60 ≤ mb.confidence.getD 0 →
        Event.markAttendance (mb.user_id.getD ident.uid) (mb.confidence.getD 0) mb.timestamp
          ∈ (mark_attendance svc ident mb).2) := by
  refine ⟨?_, ?_, ?_⟩
  · intro img enc msg q himg hne hq henc
    rcases hs : svc.saveFaceEncoding (ub.user_id.getD ident.uid) enc
        (ub.is_reference.getD false) with e | b
    · simp [upload_face, himg, hne, hq, henc, hs]
    · cases b
      · simp [upload_face, himg, hne, hq, henc, hs]
      · rcases hu : svc.uploadImage img (ub.user_id.getD ident.uid)
            (if ub.is_reference.getD false then "reference" else "captured") with e | url <;>
          simp [upload_face, himg, hne, hq, henc, hs, hu]
  · intro img himg hne
    rcases hr : svc.getFaceEncoding (cb.user_id.getD ident.uid) true with e | r
    · simp [compare_faces, himg, hne, hr]
    · rcases r with _ | ref
      · simp [compare_faces, himg, hne, hr]
      · rcases he : svc.encodeFace img with e | p
        · simp [compare_faces, himg, hne, hr, he]
        · rcases p with ⟨_ | cand, msg⟩
          · simp [compare_faces, himg, hne, hr, he]
          · rcases hc : svc.compareFaces ref cand with e | res
            · simp [compare_faces, himg, hne, hr, he, hc]
            · rcases hs : svc.saveFaceEncoding (cb.user_id.getD ident.uid) cand false
                  with e | b <;>
                simp [compare_faces, himg, hne, hr, he, hc, hs]
  · intro h60
    have h : ¬ mb.confidence.getD 0 < 60 := not_lt.mpr h60
    rcases hm : svc.markAttendance (mb.user_id.getD ident.uid) (mb.confidence.getD 0)
        mb.timestamp with e | b
    · simp [mark_attendance, h, hm]
    · cases b <;> simp [mark_attendance, h, hm]

/-- C9 witness: a supplied `user_id` (`u9`) is used as given in `upload_face`;
an omitted one falls back to the authenticated `u1` in `compare_faces` and
`mark_attendance`. -/
theorem claim_C9_witness :
    Event.saveFaceEncoding "u9" "enc:imgA" false ∈
      (upload_face svcBase ⟨"u1", "u1@mail.test"⟩
        { image_data := some "imgA", user_id := some "u9" }).2 ∧
    Event.getFaceEncoding "u1" true ∈
      (compare_faces svcBase ⟨"u1", "u1@mail.test"⟩ { captured_image := some "imgB" }).2 ∧
    Event.markAttendance "u1" 85 (some "2024-01-01T09:00:00Z") ∈
      (mark_attendance svcBase ⟨"u1", "u1@mail.test"⟩
        { confidence := some 85, timestamp := some "2024-01-01T09:00:00Z" }).2 := by
  obtain ⟨h1, h2, h3⟩ := claim_C9 svcBase ⟨"u1", "u1@mail.test"⟩
      { image_data := some "imgA", user_id := some "u9" }
      { captured_image := some "imgB" }
      { confidence := some 85, timestamp := some "2024-01-01T09:00:00Z" }
  exact ⟨h1 "imgA" "enc:imgA" "encoded" "quality ok" rfl rfl rfl rfl,
         h2 "imgB" rfl rfl, h3 (by decide)⟩

/-- C5 counterexample: the claim says an exception raised during the admin
role lookup is reported as a 500 response; on this concrete request the
role lookup raises `boom: user store down` and the route responds 401 with
that text, not 500. -/
theorem claim_C5_cex :
    (attendance_records_route svcRoleLookupRaises pylib (some "Bearer tok1") {}).1 =
      errResp 401 "boom: user store down" ∧
    (attendance_records_route svcRoleLookupRaises pylib (some "Bearer tok1") {}).1.status
      ≠ 500 := by
  exact ⟨by decide, by decide⟩

/-- C5 (amended): unexpected collaborator exceptions raised inside handler
bodies are caught at the handler boundary and reported as 500 with the raw
error text — proved at every collaborator call site of every handler body
(`upload_face`: quality check, encode, encoding save, image upload;
`compare_faces`: reference lookup, encode, comparison, encoding save;
`mark_attendance`: attendance write; `get_attendance_records`: storage read;
`get_system_stats`: records read, user list; `get_users`: user list) — but
exceptions raised during token verification or during the admin role lookup
are caught by the decorators and reported as 401 with the raw error text,
not 500. -/
theorem claim_C5 :
    (∀ (svc : Services) (hdr : Option String) (t e : String)
        (handler : Identity → Resp × List Event),
        getToken hdr = some t → svc.verifyToken t = VerifyOutcome.exn e →
        token_required svc hdr handler = (errResp 401 e, [Event.verifyToken t]) ∧
        admin_required svc hdr handler = (errResp 401 e, [Event.verifyToken t])) ∧
    (∀ (svc : Services) (hdr : Option String) (t uid email e : String)
        (handler : Identity → Resp × List Event),
        getToken hdr = some t → svc.verifyToken t = VerifyOutcome.valid uid email →
        svc.getUserData uid = Except.error e →
        admin_required svc hdr handler =
          (errResp 401 e, [Event.verifyToken t, Event.getUserData uid])) ∧
    (∀ (svc : Services) (ident : Identity) (body : UploadBody) (img e : String),
        body.image_data = some img → pyFalsy img = false →
        svc.validateFaceQuality img = Except.error e →
        (upload_face svc ident body).1 = errResp 500 e) ∧
    (∀ (svc : Services) (ident : Identity) (body : UploadBody) (img q e : String),
        body.image_data = some img → pyFalsy img = false →
        svc.validateFaceQuality img = Except.ok (true, q) →
        svc.encodeFace img = Except.error e →
        (upload_face svc ident body).1 = errResp 500 e) ∧
    (∀ (svc : Services) (ident : Identity) (body : UploadBody) (img enc msg q e : String),
        body.image_data = some img → pyFalsy img = false →
        svc.validateFaceQuality img = Except.ok (true, q) →
        svc.encodeFace img = Except.ok (some enc, msg) →
        svc.saveFaceEncoding (body.user_id.getD ident.uid) enc (body.is_reference.getD false)
          = Except.error e →
        (upload_face svc ident body).1 = errResp 500 e) ∧
    (∀ (svc : Services) (ident : Identity) (body : UploadBody) (img enc msg q e : String),
        body.image_data = some img → pyFalsy img = false →
        svc.validateFaceQuality img = Except.ok (true, q) →
        svc.encodeFace img = Except.ok (some enc, msg) →
        svc.saveFaceEncoding (body.user_id.getD ident.uid) enc (body.is_reference.getD false)
          = Except.ok true →
        svc.uploadImage img (body.user_id.getD ident.uid)
            (if body.is_reference.getD false then "reference" else "captured") =
          Except.error e →
        (upload_face svc ident body).1 = errResp 500 e) ∧
    (∀ (svc : Services) (ident : Identity) (body : CompareBody) (img e : String),
        body.captured_image = some img → pyFalsy img = false →
        svc.getFaceEncoding (body.user_id.getD ident.uid) true = Except.error e →
        (compare_faces svc ident body).1 = errResp 500 e) ∧
    (∀ (svc : Services) (ident : Identity) (body : CompareBody) (img ref e : String),
        body.captured_image = some img → pyFalsy img = false →
        svc.getFaceEncoding (body.user_id.getD ident.uid) true = Except.ok (some ref) →
        svc.encodeFace img = Except.error e →
        (compare_faces svc ident body).1 = errResp 500 e) ∧
    (∀ (svc : Services) (ident : Identity) (body : CompareBody) (img ref cand msg e : String),
        body.captured_image = some img → pyFalsy img = false →
        svc.getFaceEncoding (body.user_id.getD ident.uid) true = Except.ok (some ref) →
        svc.encodeFace img = Except.ok (some cand, msg) →
        svc.compareFaces ref cand = Except.error e →
        (compare_faces svc ident body).1 = errResp 500 e) ∧
    (∀ (svc : Services) (ident : Identity) (body : CompareBody)
        (img ref cand msg e : String) (res : CompareResult),
        body.captured_image = some img → pyFalsy img = false →
        svc.getFaceEncoding (body.user_id.getD ident.uid) true = Except.ok (some ref) →
        svc.encodeFace img = Except.ok (some cand, msg) →
        svc.compareFaces ref cand = Except.ok res →
        svc.saveFaceEncoding (body.user_id.getD ident.uid) cand false = Except.error e →
        (compare_faces svc ident body).1 = errResp 500 e) ∧
    (∀ (svc : Services) (ident : Identity) (body : MarkBody) (e : String),
        ¬ body.confidence.getD 0 < 60 →
        svc.markAttendance (body.user_id.getD ident.uid) (body.confidence.getD 0)
            body.timestamp = Except.error e →
        (mark_attendance svc ident body).1 = errResp 500 e) ∧
    (∀ (svc : Services) (lib : PyDatetime) (ident : Identity) (args : RecordsArgs)
        (sd ed : DateArg) (e : String),
        parseDateArg lib args.start_date = Except.ok sd →
        parseDateArg lib args.end_date = Except.ok ed →
        svc.getAttendanceRecords sd ed = Except.error e →
        (get_attendance_records svc lib ident args).1 = errResp 500 e) ∧
    (∀ (svc : Services) (lib : PyDatetime) (ident : Identity) (e : String),
        svc.getAttendanceRecords (DateArg.parsed lib.todayStart)
            (DateArg.parsed (lib.addOneDay lib.todayStart)) = Except.error e →
        (get_system_stats svc lib ident).1 = errResp 500 e) ∧
    (∀ (svc : Services) (lib : PyDatetime) (ident : Identity)
        (recs : List AttRecord) (e : String),
        svc.getAttendanceRecords (DateArg.parsed lib.todayStart)
            (DateArg.parsed (lib.addOneDay lib.todayStart)) = Except.ok recs →
        svc.getAllUsers = Except.error e →
        (get_system_stats svc lib ident).1 = errResp 500 e) ∧
    (∀ (svc : Services) (ident : Identity) (e : String),
        svc.getAllUsers = Except.error e →
        (get_users svc ident).1 = errResp 500 e) := by
  refine ⟨?_, ?_, ?_, ?_, ?_, ?_, ?_, ?_, ?_, ?_, ?_, ?_, ?_, ?_, ?_⟩
  · intro svc hdr t e handler htok hver
    exact ⟨by simp [token_required, htok, hver], by simp [admin_required, htok, hver]⟩
  · intro svc hdr t uid email e handler htok hver hud
    simp [admin_required, htok, hver, hud]
  · intro svc ident body img e himg hne hq
    simp [upload_face, himg, hne, hq]
  · intro svc ident body img q e himg hne hq henc
    simp [upload_face, himg, hne, hq, henc]
  · intro svc ident body img enc msg q e himg hne hq henc hs
    simp [upload_face, himg, hne, hq, henc, hs]
  · intro svc ident body img enc msg q e himg hne hq henc hs hu
    simp [upload_face, himg, hne, hq, henc, hs, hu]
  · intro svc ident body img e himg hne hr
    simp [compare_faces, himg, hne, hr]
  · intro svc ident body img ref e himg hne hr he
    simp [compare_faces, himg, hne, hr, he]
  · intro svc ident body img ref cand msg e himg hne hr he hc
    simp [compare_faces, himg, hne, hr, he, hc]
  · intro svc ident body img ref cand msg e res himg hne hr he hc hs
    simp [compare_faces, himg, hne, hr, he, hc, hs]
  · intro svc ident body e h60 hm
    simp [mark_attendance, h60, hm]
  · intro svc lib ident args sd ed e hs he hr
    simp [get_attendance_records, hs, he, hr]
  · intro svc lib ident e hr
    simp [get_system_stats, hr]
  · intro svc lib ident recs e hr hu
    simp [get_system_stats, hr, hu]
  · intro svc ident e hu
    simp [get_users, hu]

/-- C5 witness: concrete instances of the two 401 decorator cases and of
every handler-body 500 case. -/
theorem claim_C5_witness :
    token_required svcVerifyRaises (some "Bearer tok1") (fun _ => ({ status := 200 }, [])) =
      (errResp 401 "jwt boom", [Event.verifyToken "tok1"]) ∧
    admin_required svcRoleLookupRaises (some "Bearer tok1")
        (fun _ => ({ status := 200 }, [])) =
      (errResp 401 "boom: user store down",
       [Event.verifyToken "tok1", Event.getUserData "u1"]) ∧
    (upload_face svcQualityRaises ⟨"u1", "u1@mail.test"⟩ { image_data := some "imgA" }).1 =
      errResp 500 "quality service down" ∧
    (upload_face svcEncodeRaises ⟨"u1", "u1@mail.test"⟩ { image_data := some "imgA" }).1 =
      errResp 500 "encoder down" ∧
    (upload_face svcSaveRaises ⟨"u1", "u1@mail.test"⟩ { image_data := some "imgA" }).1 =
      errResp 500 "encoding store down" ∧
    (upload_face svcImageUploadRaises ⟨"u1", "u1@mail.test"⟩
        { image_data := some "imgA" }).1 = errResp 500 "storage write failed" ∧
    (compare_faces svcRefLookupRaises ⟨"u1", "u1@mail.test"⟩
        { captured_image := some "imgB" }).1 = errResp 500 "encoding lookup down" ∧
    (compare_faces svcEncodeRaises ⟨"u1", "u1@mail.test"⟩
        { captured_image := some "imgB" }).1 = errResp 500 "encoder down" ∧
    (compare_faces svcCompareRaises ⟨"u1", "u1@mail.test"⟩
        { captured_image := some "imgB" }).1 = errResp 500 "comparator down" ∧
    (compare_faces svcSaveRaises ⟨"u1", "u1@mail.test"⟩
        { captured_image := some "imgB" }).1 = errResp 500 "encoding store down" ∧
    (mark_attendance svcMarkRaises ⟨"u1", "u1@mail.test"⟩ { confidence := some 80 }).1 =
      errResp 500 "firestore unavailable" ∧
    (get_attendance_records svcRecordsRaises pylib ⟨"u1", "u1@mail.test"⟩ {}).1 =
      errResp 500 "records read down" ∧
    (get_system_stats svcRecordsRaises pylib ⟨"u1", "u1@mail.test"⟩).1 =
      errResp 500 "records read down" ∧
    (get_system_stats svcUsersRaises pylib ⟨"u1", "u1@mail.test"⟩).1 =
      errResp 500 "user list down" ∧
    (get_users svcUsersRaises ⟨"u1", "u1@mail.test"⟩).1 = errResp 500 "user list down" := by
  obtain ⟨h1, h2, h3, h4, h5, h6, h7, h8, h9, h10, h11, h12, h13, h14, h15⟩ := claim_C5
  refine ⟨(h1 svcVerifyRaises (some "Bearer tok1") "tok1" "jwt boom" _ (by decide) rfl).1,
          h2 svcRoleLookupRaises (some "Bearer tok1") "tok1" "u1" "u1@mail.test"
            "boom: user store down" _ (by decide) rfl rfl,
          h3 svcQualityRaises ⟨"u1", "u1@mail.test"⟩ { image_data := some "imgA" }
            "imgA" "quality service down" rfl rfl rfl,
          h4 svcEncodeRaises ⟨"u1", "u1@mail.test"⟩ { image_data := some "imgA" }
            "imgA" "quality ok" "encoder down" rfl rfl rfl rfl,
          h5 svcSaveRaises ⟨"u1", "u1@mail.test"⟩ { image_data := some "imgA" }
            "imgA" "enc:imgA" "encoded" "quality ok" "encoding store down"
            rfl rfl rfl rfl rfl,
          h6 svcImageUploadRaises ⟨"u1", "u1@mail.test"⟩ { image_data := some "imgA" }
            "imgA" "enc:imgA" "encoded" "quality ok" "storage write failed"
            rfl rfl rfl rfl rfl rfl,
          h7 svcRefLookupRaises ⟨"u1", "u1@mail.test"⟩ { captured_image := some "imgB" }
            "imgB" "encoding lookup down" rfl rfl rfl,
          h8 svcEncodeRaises ⟨"u1", "u1@mail.test"⟩ { captured_image := some "imgB" }
            "imgB" "ref:u1" "encoder down" rfl rfl rfl rfl,
          h9 svcCompareRaises ⟨"u1", "u1@mail.test"⟩ { captured_image := some "imgB" }
            "imgB" "ref:u1" "enc:imgB" "encoded" "comparator down" rfl rfl rfl rfl rfl,
          h10 svcSaveRaises ⟨"u1", "u1@mail.test"⟩ { captured_image := some "imgB" }
            "imgB" "ref:u1" "enc:imgB" "encoded" "encoding store down"
            { is_match := true, confidence := 95, distance := 5 } rfl rfl rfl rfl rfl rfl,
          h11 svcMarkRaises ⟨"u1", "u1@mail.test"⟩ { confidence := some 80 }
            "firestore unavailable" (by decide) rfl,
          h12 svcRecordsRaises pylib ⟨"u1", "u1@mail.test"⟩ {} DateArg.absent
            DateArg.absent "records read down" rfl rfl rfl,
          h13 svcRecordsRaises pylib ⟨"u1", "u1@mail.test"⟩ "records read down" rfl,
          h14 svcUsersRaises pylib ⟨"u1", "u1@mail.test"⟩ [] "user list down" rfl rfl,
          h15 svcUsersRaises ⟨"u1", "u1@mail.test"⟩ "user list down" rfl⟩

/-- C6 counterexample: the claim says a malformed `start_date` yields a 400
InvalidInput response; on this concrete request with `start_date` equal to
`not-a-date` the route responds 500 carrying the parser's error text. -/
theorem claim_C6_cex :
    (attendance_records_route svcBase pylib (some "Bearer tok1")
        { start_date := some "not-a-date" }).1 =
      errResp 500 "Invalid isoformat string: not-a-date" ∧
    (attendance_records_route svcBase pylib (some "Bearer tok1")
        { start_date := some "not-a-date" }).1.status ≠ 400 := by
  exact ⟨by decide, by decide⟩

/-- C6 (amended): a present-but-malformed `start_date` or `end_date` makes
`datetime.fromisoformat` raise inside the handler's `try`, so the handler
returns 500 with the raised error text (like a dependency failure), not a
400 InvalidInput response, and performs no storage read. -/
theorem claim_C6 :
    (∀ (svc : Services) (lib : PyDatetime) (ident : Identity) (args : RecordsArgs)
        (s e : String),
        args.start_date = some s → pyFalsy s = false →
        lib.fromisoformat (pyReplace1 s 'Z' "+00:00") = Except.error e →
        get_attendance_records svc lib ident args = (errResp 500 e, [])) ∧
    (∀ (svc : Services) (lib : PyDatetime) (ident : Identity) (args : RecordsArgs)
        (sd : DateArg) (e : String),
        parseDateArg lib args.start_date = Except.ok sd →
        parseDateArg lib args.end_date = Except.error e →
        get_attendance_records svc lib ident args = (errResp 500 e, [])) := by
  constructor
  · intro svc lib ident args s e hs hne hiso
    simp [get_attendance_records, parseDateArg, hs, hne, hiso, Except.map]
  · intro svc lib ident args sd e hs he
    simp [get_attendance_records, hs, he]

/-- C6 witness: concrete malformed `start_date` and `end_date` requests. -/
theorem claim_C6_witness :
    get_attendance_records svcBase pylib ⟨"u1", "u1@mail.test"⟩
        { start_date := some "not-a-date" } =
      (errResp 500 "Invalid isoformat string: not-a-date", []) ∧
    get_attendance_records svcBase pylib ⟨"u1", "u1@mail.test"⟩
        { start_date := some "2024-01-01", end_date := some "garbage" } =
      (errResp 500 "Invalid isoformat string: garbage", []) := by
  exact ⟨claim_C6.1 svcBase pylib ⟨"u1", "u1@mail.test"⟩
           { start_date := some "not-a-date" } "not-a-date"
           "Invalid isoformat string: not-a-date" rfl rfl rfl,
         claim_C6.2 svcBase pylib ⟨"u1", "u1@mail.test"⟩
           { start_date := some "2024-01-01", end_date := some "garbage" }
           (DateArg.parsed "2024-01-01") "Invalid isoformat string: garbage"
           rfl rfl⟩

/-- C7 counterexample: the claim says a failed image persistence after a
successful encoding save is reported to the client as explicit partial
success; on this concrete request the image upload raises after the encoding
is saved (the save event is in the log and the collaborator returned
success), yet the response is a bare 500 error that does not mention the
saved encoding (`encoding_saved` is absent) and reports no success at all. -/
theorem claim_C7_cex :
    (upload_face_route svcImageUploadRaises (some "Bearer tok1")
        { image_data := some "imgA", user_id := some "u1", is_reference := some true }).1 =
      errResp 500 "storage write failed" ∧
    Event.saveFaceEncoding "u1" "enc:imgA" true ∈
      (upload_face_route svcImageUploadRaises (some "Bearer tok1")
        { image_data := some "imgA", user_id := some "u1", is_reference := some true }).2 ∧
    svcImageUploadRaises.saveFaceEncoding "u1" "enc:imgA" true = Except.ok true ∧
    (upload_face_route svcImageUploadRaises (some "Bearer tok1")
        { image_data := some "imgA", user_id := some "u1", is_reference := some true
        }).1.encoding_saved = none ∧
    (upload_face_route svcImageUploadRaises (some "Bearer tok1")
        { image_data := some "imgA", user_id := some "u1", is_reference := some true
        }).1.success ≠ some true := by
  refine ⟨by decide, by decide, rfl, by decide, by decide⟩

/-- C7 (amended): when the encoding is persisted but the subsequent image
persistence raises, the response does not report overall success — it is a
500 error carrying the raw error text — but the partial success is not
reported explicitly either: the response does not mention the saved encoding. -/
theorem claim_C7 (svc : Services) (ident : Identity) (body : UploadBody)
    (img enc msg q e : String)
    (himg : body.image_data = some img) (hne : pyFalsy img = false)
    (hq : svc.validateFaceQuality img = Except.ok (true, q))
    (henc : svc.encodeFace img = Except.ok (some enc, msg))
    (hsave : svc.saveFaceEncoding (body.user_id.getD ident.uid) enc
        (body.is_reference.getD false) = Except.ok true)
    (hupl : svc.uploadImage img (body.user_id.getD ident.uid)
        (if body.is_reference.getD false then "reference" else "captured") =
      Except.error e) :
    (upload_face svc ident body).1 = errResp 500 e ∧
    (upload_face svc ident body).1.success = some false ∧
    (upload_face svc ident body).1.encoding_saved = none ∧
    Event.saveFaceEncoding (body.user_id.getD ident.uid) enc (body.is_reference.getD false)
      ∈ (upload_face svc ident body).2 := by
  have h : upload_face svc ident body =
      (errResp 500 e,
       [Event.validateQuality img, Event.encodeFace img,
        Event.saveFaceEncoding (body.user_id.getD ident.uid) enc
          (body.is_reference.getD false),
        Event.uploadImage img (body.user_id.getD ident.uid)
          (if body.is_reference.getD false then "reference" else "captured")]) := by
    simp [upload_face, himg, hne, hq, henc, hsave, hupl]
  rw [h]
  simp [errResp]

/-- C7 witness at a concrete request whose image upload raises. -/
theorem claim_C7_witness :
    (upload_face svcImageUploadRaises ⟨"u1", "u1@mail.test"⟩
        { image_data := some "imgA" }).1 = errResp 500 "storage write failed" ∧
    Event.saveFaceEncoding "u1" "enc:imgA" false ∈
      (upload_face svcImageUploadRaises ⟨"u1", "u1@mail.test"⟩
        { image_data := some "imgA" }).2 := by
  have h := claim_C7 svcImageUploadRaises ⟨"u1", "u1@mail.test"⟩
      { image_data := some "imgA" } "imgA" "enc:imgA" "encoded" "quality ok"
      "storage write failed" rfl rfl rfl rfl rfl rfl
  exact ⟨h.1, h.2.2.2⟩

/-- C8 counterexample: the claim says the reported attendance rate equals
`present_today / total_users * 100`; with 3 users and 1 present the code
reports `round(100 / 3, 2) = 33.33`, which differs from `100 / 3`. -/
theorem claim_C8_cex :
    (system_stats_route svcThreeUsersOnePresent pylib (some "Bearer tok1")).1.stats =
      some { total_users := 3, present_today := 1, attendance_rate := 3333 / 100,
             system_status := "online", last_updated := "2024-01-01T12:00:00" } ∧
    (3333 : ℚ) / 100 ≠ (1 : ℚ) / 3 * 100 := by
  constructor
  · rw [system_stats_route,
        admin_required_passes svcThreeUsersOnePresent _ _ "tok1" "u1" "u1@mail.test"
          (some { role := some "admin" }) (by decide) (by decide) rfl (by decide)]
    simp [get_system_stats, svcThreeUsersOnePresent, svcBase, pylib]
    norm_num [pyRound2, pyRound]
  · norm_num

/-- C8 (amended): the reported attendance rate equals
`present_today / total_users * 100` rounded to two decimal places (Python
`round`), and when `total_users = 0` it is 0; in both cases the handler
returns a 200 success response, so no division error surfaces. -/
theorem claim_C8 (svc : Services) (lib : PyDatetime) (ident : Identity)
    (recs : List AttRecord) (users : List UserData)
    (hrec : svc.getAttendanceRecords (DateArg.parsed lib.todayStart)
        (DateArg.parsed (lib.addOneDay lib.todayStart)) = Except.ok recs)
    (husers : svc.getAllUsers = Except.ok users) :
    (get_system_stats svc lib ident).1.status = 200 ∧
    (get_system_stats svc lib ident).1.success = some true ∧
    (get_system_stats svc lib ident).1.stats =
      some { total_users := users.length,
             present_today := (recs.filter (fun r => r.status = some "present")).length,
             attendance_rate :=
               pyRound2 (if 0 < users.length then
                   ((recs.filter (fun r => r.status = some "present")).length : ℚ) /
                     (users.length : ℚ) * 100
                 else 0),
             system_status := "online", last_updated := lib.nowIso } ∧
    (users = [] →
      (get_system_stats svc lib ident).1.stats =
        some { total_users := 0,
               present_today := (recs.filter (fun r => r.status = some "present")).length,
               attendance_rate := 0,
               system_status := "online", last_updated := lib.nowIso }) := by
  have h : get_system_stats svc lib ident =
      ({ status := 200, success := some true,
         stats := some { total_users := users.length,
                         present_today :=
                           (recs.filter (fun r => r.status = some "present")).length,
                         attendance_rate :=
                           pyRound2 (if 0 < users.length then
                               ((recs.filter (fun r => r.status = some "present")).length : ℚ) /
                                 (users.length : ℚ) * 100
                             else 0),
                         system_status := "online", last_updated := lib.nowIso } },
       [Event.getAttendanceRecords (DateArg.parsed lib.todayStart)
          (DateArg.parsed (lib.addOneDay lib.todayStart)), Event.getAllUsers]) := by
    simp [get_system_stats, hrec, husers]
  refine ⟨by rw [h], by rw [h], by rw [h], fun hu => ?_⟩
  subst hu
  rw [h]
  norm_num [pyRound2, pyRound]

/-- C8 witness: the amended theorem at 3 users / 1 present, and at zero
users, where the rate is 0 and the response is still a success. -/
theorem claim_C8_witness :
    (get_system_stats svcThreeUsersOnePresent pylib ⟨"u1", "u1@mail.test"⟩).1.status = 200 ∧
    (get_system_stats svcBase pylib ⟨"u1", "u1@mail.test"⟩).1.stats =
      some { total_users := 0, present_today := 0, attendance_rate := 0,
             system_status := "online", last_updated := "2024-01-01T12:00:00" } := by
  refine ⟨(claim_C8 svcThreeUsersOnePresent pylib ⟨"u1", "u1@mail.test"⟩
            [{ status := some "present" }]
            [{ role := some "member" }, { role := some "member" }, { role := some "member" }]
            rfl rfl).1, ?_⟩
  exact (claim_C8 svcBase pylib ⟨"u1", "u1@mail.test"⟩ [] [] rfl rfl).2.2.2 rfl

end AttendanceApp
